import Mathlib

/-!
Shallow embedding of `paperscraper/utils.py`: the `ThrottledClientSession`
rate-limited retrying request layer (constructor, bucket filler, token
acquisition, retry loop) and the `encode_id` hashing helper.

Modelling conventions:
* Python floats that hold configuration values and wall-clock times are
  modelled as rationals (`ℚ`).
* `int(x)` (Python truncation toward zero) is `pyInt`.
* Python `int` values that may be negative (`retry_count`) are `Int`.
* The asyncio queue is modelled by its size and capacity; a blocked
  `queue.get()` on an empty queue is represented by `Option.none`
  (no result is produced while the bucket is empty).
-/

namespace PaperScraper

/-- Python `int(x)` for a rational: truncation toward zero. -/
def pyInt (q : ℚ) : Int :=
  if 0 ≤ q then Int.floor q else -Int.floor (-q)

theorem pyInt_of_nonneg {q : ℚ} (h : 0 ≤ q) : pyInt q = Int.floor q := by
  simp [pyInt, h]

/-! ### Constructor (`ThrottledClientSession.__init__`) -/

/-- `MAX_WAIT_FOR_CLOSE = 6.0` (sec). -/
def MAX_WAIT_FOR_CLOSE : ℚ := 6

/-- `TIME_BASE = MAX_WAIT_FOR_CLOSE - 1` (sec). -/
def TIME_BASE : ℚ := MAX_WAIT_FOR_CLOSE - 1

/-- The error raised by the constructor: rate limit too low for a
responsive close (the Python `ValueError`), carrying the offending rate. -/
inductive InitError where
  | rateLimitTooLow : ℚ → InitError
deriving DecidableEq

/-- Observable state of a freshly constructed session: the stored
configuration, the capacity of the token bucket when one was created
(`_queue` with `maxsize`), and whether a filler task was started. -/
structure Session where
  rate_limit : Option ℚ
  retry_count : Int
  queueCap : Option Nat
  fillerTask : Bool
deriving DecidableEq

/-- `ThrottledClientSession.__init__`: stores the configuration; when a rate
limit is given it computes `queue_size = int(rate_limit * TIME_BASE)`,
rejects `queue_size < 1`, and otherwise creates the bucket and starts the
filler task.  No validation is performed on `retry_count`. -/
def initSession (rate_limit : Option ℚ) (retry_count : Int) :
    Except InitError Session :=
  match rate_limit with
  | none => .ok ⟨none, retry_count, none, false⟩
  | some r =>
      let queue_size : Int := pyInt (r * TIME_BASE)
      if queue_size < 1 then
        .error (.rateLimitTooLow r)
      else
        .ok ⟨some r, retry_count, some queue_size.toNat, true⟩

/-! ### Token acquisition (`_wait_can_make_request`) -/

/-- `_wait_can_make_request`, on a queue described by its current size
(`none` when throttling is disabled and no queue exists).  Returns the new
queue state together with the number of tokens consumed, or `none` when the
call blocks (empty bucket).  Disabled throttling is a no-op. -/
def waitCanMakeRequest : Option Nat → Option (Option Nat × Nat)
  | none => some (none, 0)
  | some (q + 1) => some (some q, 1)
  | some 0 => none

/-! ### Bucket filler (`_filler`) -/

/-- One filler wake cycle (`_filler` loop body): with `elapsed` seconds since
the previous wake, `num_requests_to_add = int(elapsed * rate_limit)` tokens
are due, `available_space = queue.maxsize - queue.qsize()`, and
`min(num_requests_to_add, available_space)` tokens are inserted (a Python
`range` over a negative bound runs zero iterations, hence `Int.toNat`). -/
def fillerCycleAdd (R : ℚ) (maxsize qsize : Nat) (elapsed : ℚ) : Nat :=
  let num_requests_to_add : Int := pyInt (elapsed * R)
  let available_space : Int := (maxsize : Int) - (qsize : Int)
  (min num_requests_to_add available_space).toNat

/-- The filler's inter-cycle sleep: `max(1 / rate_limit, 1e-3)` sec. -/
def sleepInterval (R : ℚ) : ℚ := max (1 / R) (1 / 1000)

/-- The spec's formulation of the per-cycle insertion count:
`min(floor(elapsed × rate_limit), capacity − current_queue_size)`. -/
def fillerCycleAddSpec (R : ℚ) (capacity qsize : Nat) (elapsed : ℚ) : Nat :=
  min (Int.floor (elapsed * R)).toNat (capacity - qsize)

/-- Global state of the token bucket as driven by the filler task and the
consumers: current queue size, cumulative number of tokens ever inserted,
the filler's `ts_before_sleep` timestamp, and the current wall-clock time. -/
structure BucketState where
  qsize : Nat
  inserted : Nat
  prev : ℚ
  now : ℚ
deriving DecidableEq

/-- Initial bucket state: empty bucket, filler started at time 0. -/
def bucketInit : BucketState := ⟨0, 0, 0, 0⟩

/-- Step relation of the refiller/consumer system for rate limit `R` and
bucket capacity `cap`:
* `refill`: the filler wakes at time `t`, inserts `fillerCycleAdd` tokens for
  the elapsed time since `prev`, and resets `ts_before_sleep` to `t`;
* `consume`: a request attempt takes one token (`queue.get()` only completes
  on a non-empty bucket);
* `tick`: wall-clock time passes with no event. -/
inductive BucketStep (R : ℚ) (cap : Nat) : BucketState → BucketState → Prop
  | refill (s : BucketState) (t : ℚ) (h : s.now ≤ t) :
      BucketStep R cap s
        ⟨s.qsize + fillerCycleAdd R cap s.qsize (t - s.prev),
         s.inserted + fillerCycleAdd R cap s.qsize (t - s.prev), t, t⟩
  | consume (s : BucketState) (h : 1 ≤ s.qsize) :
      BucketStep R cap s ⟨s.qsize - 1, s.inserted, s.prev, s.now⟩
  | tick (s : BucketState) (t : ℚ) (h : s.now ≤ t) :
      BucketStep R cap s ⟨s.qsize, s.inserted, s.prev, t⟩

/-! ### Retry loop (`_request`) -/

/-- `SERVICE_LIMIT_REACHED_STATUS_CODES = {429, 503}`. -/
def serviceLimitCodes : List Nat := [429, 503]

/-- Exponential backoff with jitter, from the source:
`3 + 0.1 * (2 ** retry_num + random.random())`, with the random draw `j`
made explicit. -/
def backoffDelay (i : Nat) (j : ℚ) : ℚ := 3 + (1 / 10) * (2 ^ i + j)

/-- Outcome of a `_request` call: the returned response status, or the
`RuntimeError` raised after the retry budget is exhausted (the message names
the configured retry count, which the outcome therefore carries). -/
inductive ReqOutcome where
  | success : Nat → ReqOutcome
  | rateLimitExhausted : Int → ReqOutcome
deriving DecidableEq

/-- Observable trace of one `_request` call: number of transport attempts
issued, number of token acquisitions performed (`_wait_can_make_request`
calls, one per attempt), the backoff sleeps performed, and the outcome. -/
structure ReqTrace where
  attempts : Nat
  tokens : Nat
  sleeps : List ℚ
  outcome : ReqOutcome
deriving DecidableEq

/-- The body of the `for retry_num in range(retry_count + 1)` loop of
`_request`, recursing over the remaining loop indices.  `transport i` is the
status returned by the underlying transport on attempt `i`; `jitter i` is
the value of `random.random()` drawn on attempt `i`.  An exhausted index
list without a `break` runs the `for`'s `else` clause, which raises. -/
def requestGo (transport : Nat → Nat) (jitter : Nat → ℚ) (retryCount : Int) :
    List Nat → ReqTrace
  | [] => ⟨0, 0, [], .rateLimitExhausted retryCount⟩
  | i :: rest =>
      let status := transport i
      if status ∈ serviceLimitCodes then
        if (i : Int) < retryCount then
          let t := requestGo transport jitter retryCount rest
          ⟨t.attempts + 1, t.tokens + 1,
           backoffDelay i (jitter i) :: t.sleeps, t.outcome⟩
        else
          let t := requestGo transport jitter retryCount rest
          ⟨t.attempts + 1, t.tokens + 1, t.sleeps, t.outcome⟩
      else
        ⟨1, 1, [], .success status⟩

/-- `ThrottledClientSession._request`: the retry loop over attempt indices
`range(retry_count + 1)` (empty when `retry_count + 1 ≤ 0`). -/
def request (transport : Nat → Nat) (jitter : Nat → ℚ)
    (retryCount : Int) : ReqTrace :=
  requestGo transport jitter retryCount (List.range (retryCount + 1).toNat)

/-! ### Lemmas about the retry loop -/

theorem requestGo_cons (transport : Nat → Nat) (jitter : Nat → ℚ)
    (rc : Int) (i : Nat) (rest : List Nat) :
    requestGo transport jitter rc (i :: rest) =
      if transport i ∈ serviceLimitCodes then
        if (i : Int) < rc then
          ⟨(requestGo transport jitter rc rest).attempts + 1,
           (requestGo transport jitter rc rest).tokens + 1,
           backoffDelay i (jitter i) ::
             (requestGo transport jitter rc rest).sleeps,
           (requestGo transport jitter rc rest).outcome⟩
        else
          ⟨(requestGo transport jitter rc rest).attempts + 1,
           (requestGo transport jitter rc rest).tokens + 1,
           (requestGo transport jitter rc rest).sleeps,
           (requestGo transport jitter rc rest).outcome⟩
      else ⟨1, 1, [], .success (transport i)⟩ := rfl

theorem requestGo_all_limited (transport : Nat → Nat) (jitter : Nat → ℚ)
    (rc : Int) (hT : ∀ i, transport i ∈ serviceLimitCodes) :
    ∀ (n a : Nat), (a : Int) + n = rc + 1 →
      requestGo transport jitter rc (List.range' a n) =
        ⟨n, n, (List.range' a (n - 1)).map (fun i => backoffDelay i (jitter i)),
         .rateLimitExhausted rc⟩ := by
  intro n
  induction n with
  | zero => intro a _; simp [requestGo]
  | succ m ih =>
      intro a hend
      have hrc : rc = (a : Int) + m := by omega
      cases m with
      | zero =>
          have hlt : ¬ ((a : Int) < rc) := by omega
          simp [List.range', requestGo, hT a, hlt]
      | succ k =>
          have hlt : (a : Int) < rc := by omega
          have hrest := ih (a + 1) (by push_cast; push_cast at hend; omega)
          rw [show List.range' a (k + 1 + 1) = a :: List.range' (a + 1) (k + 1)
                from rfl,
            requestGo_cons, if_pos (hT a), if_pos hlt, hrest]
          simp [List.range']

/-- A `_request` call against a transport that answers with a service-limit
status on every attempt, with retry count `N ≥ 0`: `N + 1` attempts, `N + 1`
token acquisitions, `N` backoff sleeps, and the exhaustion error. -/
theorem request_all_limited (N : Nat) (transport : Nat → Nat)
    (jitter : Nat → ℚ) (hT : ∀ i, transport i ∈ serviceLimitCodes) :
    request transport jitter (N : Int) =
      ⟨N + 1, N + 1, (List.range N).map (fun i => backoffDelay i (jitter i)),
       .rateLimitExhausted (N : Int)⟩ := by
  unfold request
  have h1 : ((N : Int) + 1).toNat = N + 1 := by omega
  rw [h1, List.range_eq_range',
    requestGo_all_limited transport jitter _ hT (N + 1) 0 (by push_cast; ring)]
  simp [List.range_eq_range']

/-! ### Claim theorems for the retry loop -/

/-- C1: against a transport returning a service-limit status (429 or 503) on
every attempt, a `_request` call with `retry_count = N ≥ 0` performs exactly
`N + 1` attempts, consumes exactly `N + 1` tokens, and raises the
service-limit-exhaustion error naming the configured retry count, never
returning a response. -/
theorem C1_always_limited_exhausts_retries (N : Nat) (transport : Nat → Nat)
    (jitter : Nat → ℚ) (hT : ∀ i, transport i ∈ serviceLimitCodes) :
    request transport jitter (N : Int) =
      ⟨N + 1, N + 1, (List.range N).map (fun i => backoffDelay i (jitter i)),
       .rateLimitExhausted (N : Int)⟩ :=
  request_all_limited N transport jitter hT

/-- Witness for C1 at `N = 0` and a transport that always answers 429:
1 attempt, 1 token, no sleep, exhaustion error naming retry count 0. -/
theorem C1_always_limited_exhausts_retries_witness :
    request (fun _ => 429) (fun _ => 0) 0 = ⟨1, 1, [], .rateLimitExhausted 0⟩ := by
  have h := C1_always_limited_exhausts_retries 0 (fun _ => 429) (fun _ => 0)
    (fun i => by simp [serviceLimitCodes])
  simpa using h

/-- C5: a `_request` call whose first transport response status lies outside
`{429, 503}` returns that response after exactly one token acquisition and
zero backoff sleeps, for every `retry_count ≥ 0`. -/
theorem C5_non_limit_status_returns_immediately (rc : Int)
    (transport : Nat → Nat) (jitter : Nat → ℚ) (hrc : 0 ≤ rc)
    (hT : transport 0 ∉ serviceLimitCodes) :
    request transport jitter rc = ⟨1, 1, [], .success (transport 0)⟩ := by
  unfold request
  have h1 : (rc + 1).toNat = rc.toNat + 1 := by omega
  rw [h1, List.range_eq_range']
  simp [List.range', requestGo, hT]

/-- Witness for C5 at `retry_count = 5` and a transport answering 404. -/
theorem C5_non_limit_status_returns_immediately_witness :
    request (fun _ => 404) (fun _ => 0) 5 = ⟨1, 1, [], .success 404⟩ :=
  C5_non_limit_status_returns_immediately 5 (fun _ => 404) (fun _ => 0)
    (by norm_num) (by simp [serviceLimitCodes])

/-- C9: with a negative `retry_count`, `range(retry_count + 1)` is empty, so
the loop body never runs: no token is consumed, no transport request is
issued, and the exhaustion error is raised immediately. -/
theorem C9_negative_retry_raises_immediately (rc : Int)
    (transport : Nat → Nat) (jitter : Nat → ℚ) (h : rc < 0) :
    request transport jitter rc = ⟨0, 0, [], .rateLimitExhausted rc⟩ := by
  unfold request
  have h1 : (rc + 1).toNat = 0 := by omega
  rw [h1]
  simp [requestGo]

/-- Witness for C9 at `retry_count = -1`. -/
theorem C9_negative_retry_raises_immediately_witness :
    request (fun _ => 200) (fun _ => 0) (-1) =
      ⟨0, 0, [], .rateLimitExhausted (-1)⟩ :=
  C9_negative_retry_raises_immediately (-1) (fun _ => 200) (fun _ => 0)
    (by norm_num)

/-- C6: the backoff sleep performed before retry `i + 1` (for `i` below the
retry count, against an always-limited transport) is exactly
`backoffDelay i j = 3 + 0.1 * (2 ^ i + j)` with `j` the jitter drawn on
attempt `i`; every backoff delay with jitter `0 ≤ j < 1` is at least 3, and
ignoring jitter the delay is strictly increasing in the attempt index. -/
theorem C6_backoff_formula_and_growth (i₁ i₂ rc : Nat)
    (transport : Nat → Nat) (jitter : Nat → ℚ) (j : ℚ)
    (h0 : 0 ≤ j) (h1 : j < 1) (h12 : i₁ < i₂) (hi : i₁ < rc)
    (hT : ∀ i, transport i ∈ serviceLimitCodes) :
    (request transport jitter (rc : Int)).sleeps[i₁]? =
        some (backoffDelay i₁ (jitter i₁)) ∧
    3 ≤ backoffDelay i₁ j ∧
    backoffDelay i₁ 0 < backoffDelay i₂ 0 := by
  refine ⟨?_, ?_, ?_⟩
  · rw [request_all_limited rc transport jitter hT]
    simp [List.getElem?_map, List.getElem?_range, hi]
  · have h2 : (0 : ℚ) ≤ 2 ^ i₁ := by positivity
    simp only [backoffDelay]
    linarith
  · have h2 : (2 : ℚ) ^ i₁ < 2 ^ i₂ :=
      pow_lt_pow_right₀ (by norm_num) h12
    simp only [backoffDelay]
    linarith

/-- Witness for C6 at `i₁ = 0`, `i₂ = 1`, `retry_count = 1`, jitter 0. -/
theorem C6_backoff_formula_and_growth_witness :
    (request (fun _ => 429) (fun _ => 0) ((1 : Nat) : Int)).sleeps[0]? =
        some (backoffDelay 0 0) ∧
    3 ≤ backoffDelay 0 0 ∧
    backoffDelay 0 0 < backoffDelay 1 0 :=
  C6_backoff_formula_and_growth 0 1 1 (fun _ => 429) (fun _ => 0) 0
    le_rfl (by norm_num) (by norm_num) (by norm_num)
    (fun i => by simp [serviceLimitCodes])

/-! ### Claim theorems for the constructor and the filler -/

/-- C2: for every `rate_limit > 0`, the bucket capacity computed by the
constructor is `int(rate_limit * TIME_BASE) = floor(rate_limit * 5)`
(`TIME_BASE = 5`); a value with capacity `< 1` makes the constructor raise
before any bucket or filler task exists, and a `_request` call can only end
in a response or the exhaustion error, never a configuration error. -/
theorem C2_capacity_floor_and_low_rate_rejected (r : ℚ) (rc : Int)
    (hr : 0 < r) :
    TIME_BASE = 5 ∧
    pyInt (r * TIME_BASE) = Int.floor (r * 5) ∧
    (1 ≤ Int.floor (r * 5) →
      initSession (some r) rc =
        .ok ⟨some r, rc, some (Int.floor (r * 5)).toNat, true⟩) ∧
    (Int.floor (r * 5) < 1 →
      initSession (some r) rc = .error (.rateLimitTooLow r)) ∧
    (∀ (transport : Nat → Nat) (jitter : Nat → ℚ) (rc' : Int),
      (∃ st, (request transport jitter rc').outcome = .success st) ∨
      (∃ n, (request transport jitter rc').outcome = .rateLimitExhausted n)) := by
  have htb : TIME_BASE = 5 := by norm_num [TIME_BASE, MAX_WAIT_FOR_CLOSE]
  have hpy : pyInt (r * TIME_BASE) = Int.floor (r * 5) := by
    rw [htb, pyInt_of_nonneg (by positivity)]
  refine ⟨htb, hpy, ?_, ?_, ?_⟩
  · intro h1
    simp [initSession, hpy, show ¬ Int.floor (r * 5) < 1 by omega]
  · intro h1
    simp [initSession, hpy, h1]
  · intro transport jitter rc'
    cases hout : (request transport jitter rc').outcome with
    | success st => exact Or.inl ⟨st, rfl⟩
    | rateLimitExhausted n => exact Or.inr ⟨n, rfl⟩

/-- Witness for C2 at `rate_limit = 1`, `retry_count = 7`: the capacity is
`floor(1 * 5) = 5` and construction succeeds with a running filler task. -/
theorem C2_capacity_floor_and_low_rate_rejected_witness :
    initSession (some 1) 7 = .ok ⟨some 1, 7, some 5, true⟩ := by
  have h := (C2_capacity_floor_and_low_rate_rejected 1 7 (by norm_num)).2.2.1
    (by norm_num)
  have h5 : Int.floor ((1 : ℚ) * 5) = 5 := by norm_num
  rw [h5] at h
  simpa using h

/-- C4: each filler wake cycle inserts exactly
`min(floor(elapsed * rate_limit), capacity - current_queue_size)` tokens —
the source's computation agrees with the spec's formula for every elapsed
time and queue fill level — and then sleeps `max(1/rate_limit, 1ms)`.  The
insertion count is a function of the elapsed time and queue state only, not
of how many cycles have run. -/
theorem C4_filler_cycle_insertion_and_sleep (R elapsed : ℚ)
    (maxsize qsize : Nat) (hR : 0 < R) (he : 0 ≤ elapsed)
    (hq : qsize ≤ maxsize) :
    fillerCycleAdd R maxsize qsize elapsed =
      fillerCycleAddSpec R maxsize qsize elapsed ∧
    sleepInterval R = max (1 / R) (1 / 1000) := by
  refine ⟨?_, rfl⟩
  have hprod : (0 : ℚ) ≤ elapsed * R := mul_nonneg he hR.le
  have hf : 0 ≤ Int.floor (elapsed * R) := Int.floor_nonneg.mpr hprod
  simp only [fillerCycleAdd, fillerCycleAddSpec, pyInt_of_nonneg hprod]
  omega

/-- Witness for C4 at `R = 1`, `elapsed = 2`, capacity 5, queue size 1. -/
theorem C4_filler_cycle_insertion_and_sleep_witness :
    fillerCycleAdd 1 5 1 2 = fillerCycleAddSpec 1 5 1 2 ∧
    sleepInterval 1 = max 1 (1 / 1000) := by
  have h := C4_filler_cycle_insertion_and_sleep 1 2 5 1 (by norm_num)
    (by norm_num) (by norm_num)
  simpa using h

/-- C7 counterexample: the constructor performs no validation of
`retry_count`; constructing with `retry_count = -1` succeeds (the claim says
it must fail). -/
theorem C7_counterexample_negative_retry_accepted :
    initSession none (-1) = .ok ⟨none, -1, none, false⟩ := rfl

/-- C7 amended: the constructor does not validate `retry_count`; for every
`retry_count`, including negative values, construction succeeds (storing the
value unchanged) whenever the rate-limit constraint is satisfied or the
rate limit is absent. -/
theorem C7_amended_no_retry_count_validation (rc : Int) (r : ℚ)
    (h : 1 ≤ pyInt (r * TIME_BASE)) :
    (∃ s, initSession none rc = .ok s ∧ s.retry_count = rc) ∧
    (∃ s, initSession (some r) rc = .ok s ∧ s.retry_count = rc) := by
  constructor
  · exact ⟨_, rfl, rfl⟩
  · refine ⟨⟨some r, rc, some (pyInt (r * TIME_BASE)).toNat, true⟩, ?_, rfl⟩
    simp [initSession, show ¬ pyInt (r * TIME_BASE) < 1 by omega]

/-- Witness for C7's amended claim at `retry_count = -1`, `rate_limit = 1`. -/
theorem C7_amended_no_retry_count_validation_witness :
    (∃ s, initSession none (-1) = .ok s ∧ s.retry_count = -1) ∧
    (∃ s, initSession (some 1) (-1) = .ok s ∧ s.retry_count = -1) :=
  C7_amended_no_retry_count_validation (-1) 1
    (by norm_num [pyInt, TIME_BASE, MAX_WAIT_FOR_CLOSE])

/-- C8: constructing without a rate limit creates no bucket and no filler
task, and token acquisition is then a no-op (zero tokens consumed); with a
rate limit, a bucket and filler task are created, and token acquisition
removes exactly one token from a non-empty bucket while an empty bucket
blocks the caller. -/
theorem C8_throttling_presence (rc : Int) (r : ℚ) (q : Nat)
    (h : 1 ≤ pyInt (r * TIME_BASE)) :
    initSession none rc = .ok ⟨none, rc, none, false⟩ ∧
    waitCanMakeRequest none = some (none, 0) ∧
    waitCanMakeRequest (some (q + 1)) = some (some q, 1) ∧
    waitCanMakeRequest (some 0) = none ∧
    initSession (some r) rc =
      .ok ⟨some r, rc, some (pyInt (r * TIME_BASE)).toNat, true⟩ := by
  refine ⟨rfl, rfl, rfl, rfl, ?_⟩
  simp [initSession, show ¬ pyInt (r * TIME_BASE) < 1 by omega]

/-- Witness for C8 at `retry_count = 0`, `rate_limit = 1`, queue size 1. -/
theorem C8_throttling_presence_witness :
    initSession none 0 = .ok ⟨none, 0, none, false⟩ ∧
    waitCanMakeRequest none = some (none, 0) ∧
    waitCanMakeRequest (some 1) = some (some 0, 1) ∧
    waitCanMakeRequest (some 0) = none ∧
    initSession (some 1) 0 = .ok ⟨some 1, 0, some 5, true⟩ := by
  have h := C8_throttling_presence 0 1 0
    (by norm_num [pyInt, TIME_BASE, MAX_WAIT_FOR_CLOSE])
  have h5 : (pyInt (1 * TIME_BASE)).toNat = 5 := by
    have hp : pyInt (1 * TIME_BASE) = 5 := by
      norm_num [pyInt, TIME_BASE, MAX_WAIT_FOR_CLOSE]
    rw [hp]
    rfl
  rw [h5] at h
  simpa using h

/-! ### Bucket invariant (C3) -/

/-- Inductive invariant of the refiller/consumer system: the bucket never
holds more than `cap` tokens, tokens present never exceed tokens inserted,
and tokens inserted by wakes up to `ts_before_sleep` never exceed
`floor(R * ts_before_sleep)`. -/
def BucketInv (R : ℚ) (cap : Nat) (s : BucketState) : Prop :=
  s.qsize ≤ cap ∧ s.qsize ≤ s.inserted ∧
  (s.inserted : ℤ) ≤ Int.floor (R * s.prev) ∧ 0 ≤ s.prev ∧ s.prev ≤ s.now

theorem bucketInv_init (R : ℚ) (cap : Nat) : BucketInv R cap bucketInit := by
  refine ⟨Nat.zero_le _, le_rfl, ?_, le_rfl, le_rfl⟩
  simp [bucketInit]

theorem bucketInv_step {R : ℚ} {cap : Nat} (hR : 0 ≤ R) {s s' : BucketState}
    (hs : BucketInv R cap s) (hstep : BucketStep R cap s s') :
    BucketInv R cap s' := by
  obtain ⟨hq, hqi, hif, hp0, hpn⟩ := hs
  cases hstep with
  | refill t ht =>
      have hel : (0 : ℚ) ≤ t - s.prev := by linarith
      have hprod : (0 : ℚ) ≤ (t - s.prev) * R := mul_nonneg hel hR
      have hf0 : 0 ≤ Int.floor ((t - s.prev) * R) := Int.floor_nonneg.mpr hprod
      have hspace : fillerCycleAdd R cap s.qsize (t - s.prev) ≤ cap - s.qsize := by
        simp only [fillerCycleAdd]
        omega
      have hdue : (fillerCycleAdd R cap s.qsize (t - s.prev) : ℤ) ≤
          Int.floor ((t - s.prev) * R) := by
        simp only [fillerCycleAdd, pyInt_of_nonneg hprod]
        omega
      have hsum : Int.floor (R * s.prev) + Int.floor ((t - s.prev) * R) ≤
          Int.floor (R * t) := by
        rw [show R * t = R * s.prev + (t - s.prev) * R by ring]
        exact Int.le_floor.mpr
          (by push_cast; exact add_le_add (Int.floor_le _) (Int.floor_le _))
      dsimp only [BucketInv]
      refine ⟨by omega, by omega, ?_, by linarith, le_rfl⟩
      push_cast
      push_cast at hif hdue
      linarith
  | consume h1 =>
      dsimp only [BucketInv]
      exact ⟨by omega, by omega, hif, hp0, hpn⟩
  | tick t ht =>
      dsimp only [BucketInv]
      exact ⟨hq, hqi, hif, hp0, le_trans hpn ht⟩

theorem bucketInv_reachable {R : ℚ} {cap : Nat} (hR : 0 ≤ R)
    {s : BucketState}
    (h : Relation.ReflTransGen (BucketStep R cap) bucketInit s) :
    BucketInv R cap s := by
  induction h with
  | refl => exact bucketInv_init R cap
  | tail _ hbc ih => exact bucketInv_step hR ih hbc

/-- C3: starting from an empty bucket at time 0 under rate limit `R > 0`,
after any sequence of refill cycles, token consumptions and passage of
time, the number of tokens in the bucket at wall-clock time `s.now` never
exceeds `min(cap, floor(R * now))`, in particular never the capacity. -/
theorem C3_token_count_bounded (R : ℚ) (cap : Nat) (hR : 0 < R)
    (s : BucketState)
    (h : Relation.ReflTransGen (BucketStep R cap) bucketInit s) :
    s.qsize ≤ cap ∧ (s.qsize : ℤ) ≤ Int.floor (R * s.now) := by
  obtain ⟨hq, hqi, hif, hp0, hpn⟩ := bucketInv_reachable hR.le h
  refine ⟨hq, ?_⟩
  have hmono : Int.floor (R * s.prev) ≤ Int.floor (R * s.now) :=
    Int.floor_mono (mul_le_mul_of_nonneg_left hpn hR.le)
  have hcast : (s.qsize : ℤ) ≤ (s.inserted : ℤ) := by exact_mod_cast hqi
  omega

/-- Witness for C3: one refill wake at time 2 under `R = 1`, `cap = 5`
inserts 2 tokens, and the bound holds at the resulting state. -/
theorem C3_token_count_bounded_witness :
    (⟨2, 2, 2, 2⟩ : BucketState).qsize ≤ 5 ∧
    ((⟨2, 2, 2, 2⟩ : BucketState).qsize : ℤ) ≤
      Int.floor ((1 : ℚ) * (⟨2, 2, 2, 2⟩ : BucketState).now) := by
  have hstep : BucketStep 1 5 bucketInit ⟨2, 2, 2, 2⟩ := by
    have he : (⟨2, 2, 2, 2⟩ : BucketState) =
        ⟨bucketInit.qsize + fillerCycleAdd 1 5 bucketInit.qsize (2 - bucketInit.prev),
         bucketInit.inserted + fillerCycleAdd 1 5 bucketInit.qsize (2 - bucketInit.prev),
         2, 2⟩ := by
      have h2 : fillerCycleAdd 1 5 0 2 = 2 := by
        have hp : pyInt ((2 : ℚ) * 1) = 2 := by norm_num [pyInt]
        simp only [fillerCycleAdd, hp]
        decide
      norm_num [bucketInit, h2]
    rw [he]
    exact BucketStep.refill bucketInit 2 (by norm_num [bucketInit])
  exact C3_token_count_bounded 1 5 (by norm_num) ⟨2, 2, 2, 2⟩
    (Relation.ReflTransGen.single hstep)

/-! ### `encode_id` and MD5 -/

/-- A Python `str` is modelled as its sequence of Unicode code points. -/
def PyStr := List Nat

/-- `str.lower` on one code point (the embedding covers the ASCII plane of
Python's Unicode lowercase mapping; `encode_id` inputs are DOIs/identifiers). -/
def pyLowerChar (c : Nat) : Nat :=
  if 65 ≤ c ∧ c ≤ 90 then c + 32 else c

/-- `str.lower`. -/
def pyLower (s : List Nat) : List Nat := s.map pyLowerChar

/-- `str.encode()`: UTF-8 encoding of one code point. -/
def utf8EncodeChar (c : Nat) : List Nat :=
  if c < 0x80 then [c]
  else if c < 0x800 then [0xC0 + c / 0x40, 0x80 + c % 0x40]
  else if c < 0x10000 then
    [0xE0 + c / 0x1000, 0x80 + c / 0x40 % 0x40, 0x80 + c % 0x40]
  else
    [0xF0 + c / 0x40000, 0x80 + c / 0x1000 % 0x40,
     0x80 + c / 0x40 % 0x40, 0x80 + c % 0x40]

/-- `str.encode()`: UTF-8 encoding, as a byte list. -/
def utf8Encode (s : List Nat) : List Nat := s.flatMap utf8EncodeChar

/-- Truncation to a 32-bit machine word. -/
def w32 (n : Nat) : Nat := n % 4294967296

/-- Bitwise complement of a 32-bit word. -/
def not32 (n : Nat) : Nat := Nat.xor n 4294967295

/-- Left-rotation of a 32-bit word by `r` bits. -/
def rotl32 (x r : Nat) : Nat :=
  Nat.lor (w32 (x * 2 ^ r)) (x / 2 ^ (32 - r))

/-- The MD5 per-round shift amounts. -/
def md5S : List Nat :=
  [7, 12, 17, 22, 7, 12, 17, 22, 7, 12, 17, 22, 7, 12, 17, 22,
   5, 9, 14, 20, 5, 9, 14, 20, 5, 9, 14, 20, 5, 9, 14, 20,
   4, 11, 16, 23, 4, 11, 16, 23, 4, 11, 16, 23, 4, 11, 16, 23,
   6, 10, 15, 21, 6, 10, 15, 21, 6, 10, 15, 21, 6, 10, 15, 21]

/-- The MD5 round constants `K[i] = floor(2^32 * |sin(i + 1)|)`. -/
def md5K : List Nat :=
  [0xd76aa478, 0xe8c7b756, 0x242070db, 0xc1bdceee,
   0xf57c0faf, 0x4787c62a, 0xa8304613, 0xfd469501,
   0x698098d8, 0x8b44f7af, 0xffff5bb1, 0x895cd7be,
   0x6b901122, 0xfd987193, 0xa679438e, 0x49b40821,
   0xf61e2562, 0xc040b340, 0x265e5a51, 0xe9b6c7aa,
   0xd62f105d, 0x02441453, 0xd8a1e681, 0xe7d3fbc8,
   0x21e1cde6, 0xc33707d6, 0xf4d50d87, 0x455a14ed,
   0xa9e3e905, 0xfcefa3f8, 0x676f02d9, 0x8d2a4c8a,
   0xfffa3942, 0x8771f681, 0x6d9d6122, 0xfde5380c,
   0xa4beea44, 0x4bdecfa9, 0xf6bb4b60, 0xbebfbc70,
   0x289b7ec6, 0xeaa127fa, 0xd4ef3085, 0x04881d05,
   0xd9d4d039, 0xe6db99e5, 0x1fa27cf8, 0xc4ac5665,
   0xf4292244, 0x432aff97, 0xab9423a7, 0xfc93a039,
   0x655b59c3, 0x8f0ccc92, 0xffeff47d, 0x85845dd1,
   0x6fa87e4f, 0xfe2ce6e0, 0xa3014314, 0x4e0811a1,
   0xf7537e82, 0xbd3af235, 0x2ad7d2bb, 0xeb86d391]

/-- The four 32-bit words of the MD5 state. -/
structure MDState where
  a : Nat
  b : Nat
  c : Nat
  d : Nat
deriving DecidableEq

/-- MD5 round functions. -/
def md5F (b c d : Nat) : Nat := Nat.lor (Nat.land b c) (Nat.land (not32 b) d)

def md5G (b c d : Nat) : Nat := Nat.lor (Nat.land d b) (Nat.land (not32 d) c)

def md5H (b c d : Nat) : Nat := Nat.xor (Nat.xor b c) d

def md5I (b c d : Nat) : Nat := Nat.xor c (Nat.lor b (not32 d))

/-- Group a byte list into little-endian 32-bit words. -/
def toWordsLE : List Nat → List Nat
  | b0 :: b1 :: b2 :: b3 :: rest =>
      (b0 + 256 * b1 + 65536 * b2 + 16777216 * b3) :: toWordsLE rest
  | _ => []

/-- One of the 64 MD5 operations on the state, for chunk words `M`. -/
def md5Step (M : List Nat) (st : MDState) (i : Nat) : MDState :=
  let fg : Nat × Nat :=
    if i < 16 then (md5F st.b st.c st.d, i)
    else if i < 32 then (md5G st.b st.c st.d, (5 * i + 1) % 16)
    else if i < 48 then (md5H st.b st.c st.d, (3 * i + 5) % 16)
    else (md5I st.b st.c st.d, 7 * i % 16)
  let f := w32 (fg.1 + st.a + md5K.getD i 0 + M.getD fg.2 0)
  ⟨st.d, w32 (st.b + rotl32 f (md5S.getD i 0)), st.b, st.c⟩

/-- Process one 64-byte chunk. -/
def md5Chunk (st : MDState) (chunk : List Nat) : MDState :=
  let M := toWordsLE chunk
  let e := (List.range 64).foldl (md5Step M) st
  ⟨w32 (st.a + e.a), w32 (st.b + e.b), w32 (st.c + e.c), w32 (st.d + e.d)⟩

/-- Process a padded message, 64 bytes at a time; structural recursion on a
fuel bound (each step consumes at least one byte, so `l.length` steps
always suffice). -/
def md5ProcessAux : Nat → MDState → List Nat → MDState
  | _, st, [] => st
  | 0, st, _ :: _ => st
  | fuel + 1, st, b :: rest =>
      md5ProcessAux fuel (md5Chunk st ((b :: rest).take 64))
        ((b :: rest).drop 64)

/-- Process a padded message, 64 bytes at a time. -/
def md5Process (st : MDState) (l : List Nat) : MDState :=
  md5ProcessAux l.length st l

/-- The 8-byte little-endian encoding of the message bit length. -/
def lenBytes (len : Nat) : List Nat :=
  (List.range 8).map (fun i => 8 * len / 2 ^ (8 * i) % 256)

/-- MD5 padding: a `0x80` byte, zeros to 56 mod 64, then the bit length. -/
def md5Pad (msg : List Nat) : List Nat :=
  msg ++ [0x80] ++ List.replicate ((120 - (msg.length + 1) % 64) % 64) 0 ++
    lenBytes msg.length

/-- The MD5 initialization vector. -/
def md5Init : MDState := ⟨0x67452301, 0xefcdab89, 0x98badcfe, 0x10325476⟩

/-- The four bytes of a 32-bit word, little-endian. -/
def wordBytesLE (w : Nat) : List Nat :=
  [w % 256, w / 256 % 256, w / 65536 % 256, w / 16777216 % 256]

/-- The 16-byte MD5 digest of a byte list. -/
def md5Bytes (msg : List Nat) : List Nat :=
  let e := md5Process md5Init (md5Pad msg)
  wordBytesLE e.a ++ wordBytesLE e.b ++ wordBytesLE e.c ++ wordBytesLE e.d

/-- The character for one hex digit (lowercase, as Python's `hexdigest`). -/
def hexDigitChar (n : Nat) : Char :=
  if n < 10 then Char.ofNat (48 + n) else Char.ofNat (87 + n)

/-- The two hex characters of one byte. -/
def byteHex (b : Nat) : List Char := [hexDigitChar (b / 16), hexDigitChar (b % 16)]

/-- `hashlib.md5(value).hexdigest()`: the 32-character hex digest. -/
def md5Hexdigest (msg : List Nat) : List Char := (md5Bytes msg).flatMap byteHex

/-- Python slicing `l[:maxsize]` for `maxsize: int | None` restricted to
non-negative sizes: `None` keeps the whole sequence. -/
def pySliceTo (maxsize : Option Nat) (l : List Char) : List Char :=
  match maxsize with
  | none => l
  | some m => l.take m

/-- `encode_id` on a `str` input: lowercase, UTF-8 encode, MD5, hex digest,
then `[:maxsize]`. -/
def encode_id (value : List Nat) (maxsize : Option Nat) : List Char :=
  pySliceTo maxsize (md5Hexdigest (utf8Encode (pyLower value)))


set_option maxRecDepth 8000 in
theorem md5_vector_empty :
    md5Hexdigest [] = "d41d8cd98f00b204e9800998ecf8427e".toList := by decide

set_option maxRecDepth 8000 in
theorem md5_vector_abc :
    md5Hexdigest (utf8Encode [97, 98, 99]) =
      "900150983cd24fb0d6963f7d28e17f72".toList := by decide

set_option maxRecDepth 8000 in
theorem encode_id_doi_example :
    encode_id ("10.1038/NaTuRe12373".toList.map Char.toNat) (some 16) =
      "f1fa2076e55135de".toList := by decide

theorem pyLowerChar_idem (c : Nat) :
    pyLowerChar (pyLowerChar c) = pyLowerChar c := by
  unfold pyLowerChar
  split_ifs <;> omega

theorem pyLower_idem (s : List Nat) : pyLower (pyLower s) = pyLower s := by
  unfold pyLower
  rw [List.map_map]
  exact List.map_congr_left (fun a _ => pyLowerChar_idem a)

theorem flatMap_byteHex_length (l : List Nat) :
    (l.flatMap byteHex).length = 2 * l.length := by
  induction l with
  | nil => simp
  | cons b rest ih =>
      simp only [List.flatMap_cons, List.length_append, ih, byteHex,
        List.length_cons, List.length_nil]
      omega

theorem md5Bytes_length (msg : List Nat) : (md5Bytes msg).length = 16 := by
  simp [md5Bytes, wordBytesLE]

theorem md5Hexdigest_length (msg : List Nat) :
    (md5Hexdigest msg).length = 32 := by
  unfold md5Hexdigest
  rw [flatMap_byteHex_length, md5Bytes_length]

/-- C10: `encode_id` is case-insensitive on string inputs — the value is
lowercased before hashing, so `encode_id s m = encode_id (s.lower()) m` for
every string and every `maxsize` — and the result is the first `k` hex
characters of the MD5 digest of the lowercased UTF-8 encoding when
`maxsize = k`, the full 32-character digest when `maxsize` is `None`. -/
theorem C10_encode_id_case_insensitive_md5_prefix (s : List Nat)
    (m : Option Nat) (k : Nat) :
    encode_id s m = encode_id (pyLower s) m ∧
    (encode_id s none).length = 32 ∧
    encode_id s (some k) =
      (md5Hexdigest (utf8Encode (pyLower s))).take k := by
  refine ⟨?_, ?_, rfl⟩
  · unfold encode_id
    rw [pyLower_idem]
  · unfold encode_id pySliceTo
    exact md5Hexdigest_length _

end PaperScraper
